import Mathlib

/-!
Shallow embedding of the job-queue admission path of
`src/job_queue.py` (repository `linkedin-scraper-enterprise`), together
with theorems settling the claims about `JobQueue.create_job`.

Conventions of the embedding:
* The Redis Durable Store is a single keyspace: an association list from
  string keys to values (`RVal`), plus an association list of TTLs in
  seconds.  `SETEX`, `LPUSH` and `EXPIRE` are modelled with exactly the
  semantics the code relies on.
* A stored job record is `json.dumps(asdict(job_info))`; the JSON
  round-trip is injective on records, so the store holds the `JobInfo`
  itself in place of its serialization.
* Python dict payloads (`parameters`, `result`) are opaque to the queue;
  they are modelled as association lists of strings.
* `uuid.uuid4().hex` and `datetime.utcnow().isoformat()` are
  nondeterministic inputs; they are passed to `create_job` explicitly.
* The redis client can fail on any call (connection loss).  A fault
  spec `fs : Nat → Bool` says whether the n-th redis call of the
  invocation raises; the exception propagates (the source body has no
  handler), and the result carries the store as written up to that
  point — exactly the state the external Redis would be left in.
-/

/-- Association-list lookup over the store keyspace. -/
def lookupAssoc {α : Type} : List (String × α) → String → Option α
  | [], _ => none
  | (k, v) :: rest, key => if k = key then some v else lookupAssoc rest key

/-- Association-list update (insert-or-overwrite) over the store keyspace. -/
def setAssoc {α : Type} : List (String × α) → String → α → List (String × α)
  | [], key, v => [(key, v)]
  | (k, w) :: rest, key, v =>
      if k = key then (key, v) :: rest else (k, w) :: setAssoc rest key v

/-- `class JobStatus(Enum)` — src/job_queue.py lines 53–61. -/
inductive JobStatus
  | PENDING
  | STARTED
  | PROGRESS
  | SUCCESS
  | FAILURE
  | CANCELLED
  | RETRY
  deriving DecidableEq

/-- The `.value` of each `JobStatus` member. -/
def JobStatus.value : JobStatus → String
  | .PENDING => "pending"
  | .STARTED => "started"
  | .PROGRESS => "progress"
  | .SUCCESS => "success"
  | .FAILURE => "failure"
  | .CANCELLED => "cancelled"
  | .RETRY => "retry"

/-- `class JobPriority(Enum)` — src/job_queue.py lines 63–68. -/
inductive JobPriority
  | LOW
  | NORMAL
  | HIGH
  | URGENT
  deriving DecidableEq

/-- The `.value` of each `JobPriority` member: LOW=1, NORMAL=5, HIGH=8, URGENT=10. -/
def JobPriority.value : JobPriority → Int
  | .LOW => 1
  | .NORMAL => 5
  | .HIGH => 8
  | .URGENT => 10

/-- An opaque serializable dict payload (`Dict[str, Any]`). -/
def Params := List (String × String)
deriving instance DecidableEq for Params

/-- `@dataclass class JobInfo` — src/job_queue.py lines 70–87, with the
dataclass field defaults. -/
structure JobInfo where
  job_id : String
  job_type : String
  status : String
  priority : Int
  created_at : String
  started_at : Option String := none
  completed_at : Option String := none
  progress : Int := 0
  progress_message : String := ""
  parameters : Option Params := none
  result : Option Params := none
  error_message : Option String := none
  retry_count : Int := 0
  max_retries : Int := 3
  user_id : Option String := none
  deriving DecidableEq

/-- A value in the Redis keyspace: a string (here, a serialized job
record) or a list of job ids. -/
inductive RVal
  | str (j : JobInfo)
  | list (xs : List String)
  deriving DecidableEq

/-- The Durable Store: one keyspace of values plus per-key TTLs in seconds. -/
structure Store where
  data : List (String × RVal)
  ttl : List (String × Nat)
  deriving DecidableEq

/-- The store with no keys. -/
def Store.empty : Store := ⟨[], []⟩

/-- redis `SETEX key seconds value`: set a string value and its expiry. -/
def Store.setex (st : Store) (key : String) (seconds : Nat) (j : JobInfo) : Store :=
  { data := setAssoc st.data key (.str j), ttl := setAssoc st.ttl key seconds }

/-- redis `LPUSH key x`: prepend `x` at the head (left end) of the list at
`key`, creating the list if the key is absent; the key's TTL is not
changed.  (On a key holding a non-list value Redis raises WRONGTYPE;
`create_job` only ever LPUSHes `queue:priority:*` and `user_jobs:*` keys,
which hold lists, so that branch is unreachable in this development.) -/
def Store.lpush (st : Store) (key : String) (x : String) : Store :=
  match lookupAssoc st.data key with
  | some (.list xs) => { st with data := setAssoc st.data key (.list (x :: xs)) }
  | _ => { st with data := setAssoc st.data key (.list [x]) }

/-- redis `EXPIRE key seconds`: set the TTL of an existing key; a no-op
(returning 0) when the key is absent. -/
def Store.expire (st : Store) (key : String) (seconds : Nat) : Store :=
  match lookupAssoc st.data key with
  | some _ => { st with ttl := setAssoc st.ttl key seconds }
  | none => st

/-- The list held at `key`, or `[]` if the key is absent or not a list. -/
def Store.listAt (st : Store) (key : String) : List String :=
  match lookupAssoc st.data key with
  | some (.list xs) => xs
  | _ => []

/-- The job record held at `key`, if any. -/
def Store.jobRecAt (st : Store) (key : String) : Option JobInfo :=
  match lookupAssoc st.data key with
  | some (.str j) => some j
  | _ => none

/-- The error taxonomy member for a failed Durable-Store write: the redis
client raised and the exception propagated out of `create_job`. -/
inductive QueueError
  | StoreUnavailable
  deriving DecidableEq

/-- Modelled from the spec: `self._dispatch_celery_task(job_id, job_type,
parameters)` is called at src/job_queue.py line 137, but the method's
body lies beyond the end of the source fragment (the file stops at line
139).  Per the spec the hand-off is fire-and-forget: it performs no
Durable-Store writes and a failing worker-submission backend does not
raise into the caller, so the call has no observable effect on the
admission result or store. -/
def dispatch_celery_task (_backendFails : Bool) : Unit := ()

/-- Python truthiness of `parameters or {}` (src/job_queue.py line 113):
`None` and the empty dict are falsy, so both yield `{}`; a non-empty
dict yields itself. -/
def pyOrEmpty (p : Option Params) : Params :=
  match p with
  | none => []
  | some ps => ps

/-- `JobQueue.create_job` — src/job_queue.py lines 96–139.

`job_uuid_hex` stands for `uuid.uuid4().hex`, `now` for
`datetime.utcnow().isoformat()`.  `fs n = true` makes the n-th redis
call of this invocation raise; `backendFails` says whether the Celery
worker-submission backend is down.

The redis calls occur in source order: (0) `setex` of the job record,
(1) `lpush` onto the priority lane, and — only when `user_id` is truthy
(Python `if user_id:` is false for `None` and `""`) — (2) `lpush` onto
the user's job list and (3) `expire` of that key.

The source fragment ends at line 139 (`logger.info(...)`); the trailing
`return job_id` is modelled from the spec ("Returns the `job_id`
immediately"), which the repository's own callers confirm
(`test_job = job_queue.create_job(...)` in src/test_production_final.py
line 21). -/
def create_job (st : Store) (fs : Nat → Bool) (backendFails : Bool)
    (job_uuid_hex : String) (now : String)
    (job_type : String) (parameters : Option Params)
    (priority : JobPriority := .NORMAL)
    (user_id : Option String := none)
    (max_retries : Int := 3) : Except QueueError String × Store :=
  let job_id := "job_" ++ job_uuid_hex
  let job_info : JobInfo :=
    { job_id := job_id
      job_type := job_type
      status := JobStatus.PENDING.value
      priority := priority.value
      created_at := now
      parameters := some (pyOrEmpty parameters)
      max_retries := max_retries
      user_id := user_id }
  let job_key := "job:" ++ job_id
  if fs 0 then (.error .StoreUnavailable, st) else
  let st1 := st.setex job_key (7 * 86400) job_info
  let priority_queue := "queue:priority:" ++ toString priority.value
  if fs 1 then (.error .StoreUnavailable, st1) else
  let st2 := st1.lpush priority_queue job_id
  let userStep : Option QueueError × Store :=
    match user_id with
    | some uid =>
        if uid = "" then (none, st2)
        else
          let user_jobs_key := "user_jobs:" ++ uid
          if fs 2 then (some .StoreUnavailable, st2)
          else
            let st3 := st2.lpush user_jobs_key job_id
            if fs 3 then (some .StoreUnavailable, st3)
            else (none, st3.expire user_jobs_key (86400 * 30))
    | none => (none, st2)
  match userStep with
  | (some e, stE) => (.error e, stE)
  | (none, st4) =>
      let _ := dispatch_celery_task backendFails
      (.ok job_id, st4)

/-- Modelled from the spec: the Dispatcher's lane pull is beyond the end
of the source fragment.  Per spec §4.3 and §9 the source's lane push/pop
ends make each lane a stack: the pop takes from the same (left/head) end
that `LPUSH` pushes, so the most recently pushed job id is served
first. -/
def lane_pop (st : Store) (key : String) : Option String × Store :=
  match lookupAssoc st.data key with
  | some (.list (x :: xs)) => (some x, { st with data := setAssoc st.data key (.list xs) })
  | _ => (none, st)

/-! ### Association-list and keyspace lemmas -/

lemma lookupAssoc_setAssoc_self {α : Type} (m : List (String × α)) (k : String) (v : α) :
    lookupAssoc (setAssoc m k v) k = some v := by
  induction m with
  | nil => simp [setAssoc, lookupAssoc]
  | cons hd tl ih =>
      obtain ⟨ka, va⟩ := hd
      by_cases hk : ka = k
      · subst hk; simp [setAssoc, lookupAssoc]
      · simp [setAssoc, lookupAssoc, hk, ih]

lemma lookupAssoc_setAssoc_ne {α : Type} (m : List (String × α)) (k k' : String) (v : α)
    (h : k ≠ k') : lookupAssoc (setAssoc m k v) k' = lookupAssoc m k' := by
  induction m with
  | nil => simp [setAssoc, lookupAssoc, h]
  | cons hd tl ih =>
      obtain ⟨ka, va⟩ := hd
      by_cases hk : ka = k
      · subst hk; simp [setAssoc, lookupAssoc, h]
      · by_cases hk' : ka = k'
        · subst hk'; simp [setAssoc, lookupAssoc, hk]
        · simp [setAssoc, lookupAssoc, hk, hk', ih]

lemma string_append_data (s t : String) : (s ++ t).data = s.data ++ t.data := by
  cases s; cases t; rfl

lemma string_ne_of_head (s a t b : String) (c d : Char)
    (hs : (s ++ a).data.head? = some c) (ht : (t ++ b).data.head? = some d)
    (hcd : c ≠ d) : s ++ a ≠ t ++ b := by
  intro h
  rw [h] at hs
  exact hcd (Option.some.inj (hs.symm.trans ht))

/-- Lane keys and job-record keys live in disjoint prefix families. -/
lemma key_qp_ne_job (a b : String) : "queue:priority:" ++ a ≠ "job:" ++ b := by
  apply string_ne_of_head _ _ _ _ 'q' 'j'
  · rw [string_append_data]; rfl
  · rw [string_append_data]; rfl
  · decide

/-- User-index keys and job-record keys live in disjoint prefix families. -/
lemma key_uj_ne_job (a b : String) : "user_jobs:" ++ a ≠ "job:" ++ b := by
  apply string_ne_of_head _ _ _ _ 'u' 'j'
  · rw [string_append_data]; rfl
  · rw [string_append_data]; rfl
  · decide

/-- User-index keys and lane keys live in disjoint prefix families. -/
lemma key_uj_ne_qp (a b : String) : "user_jobs:" ++ a ≠ "queue:priority:" ++ b := by
  apply string_ne_of_head _ _ _ _ 'u' 'q'
  · rw [string_append_data]; rfl
  · rw [string_append_data]; rfl
  · decide

/-- Distinct priority levels give distinct lane keys. -/
lemma lane_key_ne (p q : JobPriority) (h : p ≠ q) :
    "queue:priority:" ++ toString p.value ≠ "queue:priority:" ++ toString q.value := by
  cases p <;> cases q <;> first
    | exact absurd rfl h
    | decide

/-! ### Store-operation lemmas -/

lemma setex_data_lookup_self (st : Store) (k : String) (s : Nat) (j : JobInfo) :
    lookupAssoc (st.setex k s j).data k = some (.str j) :=
  lookupAssoc_setAssoc_self ..

lemma setex_data_lookup_ne (st : Store) (k : String) (s : Nat) (j : JobInfo) (k' : String)
    (h : k ≠ k') : lookupAssoc (st.setex k s j).data k' = lookupAssoc st.data k' :=
  lookupAssoc_setAssoc_ne _ _ _ _ h

lemma setex_ttl_lookup_self (st : Store) (k : String) (s : Nat) (j : JobInfo) :
    lookupAssoc (st.setex k s j).ttl k = some s :=
  lookupAssoc_setAssoc_self ..

lemma setex_ttl_lookup_ne (st : Store) (k : String) (s : Nat) (j : JobInfo) (k' : String)
    (h : k ≠ k') : lookupAssoc (st.setex k s j).ttl k' = lookupAssoc st.ttl k' :=
  lookupAssoc_setAssoc_ne _ _ _ _ h

lemma lpush_ttl_eq (st : Store) (k x : String) : (st.lpush k x).ttl = st.ttl := by
  unfold Store.lpush
  cases lookupAssoc st.data k with
  | none => rfl
  | some v => cases v <;> rfl

lemma lpush_data_lookup_ne (st : Store) (k x k' : String) (h : k ≠ k') :
    lookupAssoc (st.lpush k x).data k' = lookupAssoc st.data k' := by
  unfold Store.lpush
  cases hv : lookupAssoc st.data k with
  | none => exact lookupAssoc_setAssoc_ne _ _ _ _ h
  | some v => cases v <;> exact lookupAssoc_setAssoc_ne _ _ _ _ h

lemma lpush_data_lookup_self (st : Store) (k x : String) :
    lookupAssoc (st.lpush k x).data k = some (.list (x :: st.listAt k)) := by
  unfold Store.lpush Store.listAt
  cases hv : lookupAssoc st.data k with
  | none => simp [lookupAssoc_setAssoc_self]
  | some v => cases v <;> simp [lookupAssoc_setAssoc_self]

lemma lpush_listAt_self (st : Store) (k x : String) :
    (st.lpush k x).listAt k = x :: st.listAt k := by
  have h := lpush_data_lookup_self st k x
  unfold Store.listAt
  rw [h]
  rfl

lemma listAt_congr (st st' : Store) (k : String)
    (h : lookupAssoc st.data k = lookupAssoc st'.data k) : st.listAt k = st'.listAt k := by
  unfold Store.listAt
  rw [h]

lemma expire_data_eq (st : Store) (k : String) (s : Nat) : (st.expire k s).data = st.data := by
  unfold Store.expire
  cases lookupAssoc st.data k <;> rfl

lemma expire_ttl_lookup_ne (st : Store) (k : String) (s : Nat) (k' : String) (h : k ≠ k') :
    lookupAssoc (st.expire k s).ttl k' = lookupAssoc st.ttl k' := by
  unfold Store.expire
  cases lookupAssoc st.data k with
  | none => rfl
  | some v => exact lookupAssoc_setAssoc_ne _ _ _ _ h

lemma expire_ttl_lookup_self (st : Store) (k : String) (s : Nat)
    (hk : lookupAssoc st.data k ≠ none) :
    lookupAssoc (st.expire k s).ttl k = some s := by
  unfold Store.expire
  cases hv : lookupAssoc st.data k with
  | none => exact absurd hv hk
  | some v => exact lookupAssoc_setAssoc_self ..

lemma expire_listAt (st : Store) (k : String) (s : Nat) (k' : String) :
    (st.expire k s).listAt k' = st.listAt k' := by
  unfold Store.listAt
  rw [expire_data_eq]

/-! ### Characterization of the happy admission path -/

/-- The `JobInfo` that `create_job` builds (src/job_queue.py lines 107–116),
factored out of the characterization lemmas. -/
def mkJobInfo (u now ty : String) (ps : Option Params) (pr : JobPriority)
    (uid : Option String) (mr : Int) : JobInfo :=
  { job_id := "job_" ++ u
    job_type := ty
    status := JobStatus.PENDING.value
    priority := pr.value
    created_at := now
    parameters := some (pyOrEmpty ps)
    max_retries := mr
    user_id := uid }

lemma create_job_ok_none (st : Store) (fs : Nat → Bool) (bf : Bool)
    (u now ty : String) (ps : Option Params) (pr : JobPriority) (mr : Int)
    (hfs : ∀ n, fs n = false) :
    create_job st fs bf u now ty ps pr none mr =
      (.ok ("job_" ++ u),
       (st.setex ("job:" ++ ("job_" ++ u)) (7 * 86400) (mkJobInfo u now ty ps pr none mr)).lpush
         ("queue:priority:" ++ toString pr.value) ("job_" ++ u)) := by
  simp [create_job, mkJobInfo, hfs]

lemma create_job_ok_some_empty (st : Store) (fs : Nat → Bool) (bf : Bool)
    (u now ty : String) (ps : Option Params) (pr : JobPriority) (mr : Int)
    (hfs : ∀ n, fs n = false) :
    create_job st fs bf u now ty ps pr (some "") mr =
      (.ok ("job_" ++ u),
       (st.setex ("job:" ++ ("job_" ++ u)) (7 * 86400) (mkJobInfo u now ty ps pr (some "") mr)).lpush
         ("queue:priority:" ++ toString pr.value) ("job_" ++ u)) := by
  simp [create_job, mkJobInfo, hfs]

lemma create_job_ok_some (st : Store) (fs : Nat → Bool) (bf : Bool)
    (u now ty : String) (ps : Option Params) (pr : JobPriority) (uid : String) (mr : Int)
    (hfs : ∀ n, fs n = false) (hu : uid ≠ "") :
    create_job st fs bf u now ty ps pr (some uid) mr =
      (.ok ("job_" ++ u),
       ((((st.setex ("job:" ++ ("job_" ++ u)) (7 * 86400)
             (mkJobInfo u now ty ps pr (some uid) mr)).lpush
           ("queue:priority:" ++ toString pr.value) ("job_" ++ u)).lpush
          ("user_jobs:" ++ uid) ("job_" ++ u)).expire ("user_jobs:" ++ uid) (86400 * 30))) := by
  simp [create_job, mkJobInfo, hfs, hu]

lemma create_job_record_lookup (st : Store) (fs : Nat → Bool) (bf : Bool)
    (u now ty : String) (ps : Option Params) (pr : JobPriority) (uid : Option String) (mr : Int)
    (hfs : ∀ n, fs n = false) :
    lookupAssoc (create_job st fs bf u now ty ps pr uid mr).2.data ("job:" ++ ("job_" ++ u))
      = some (.str (mkJobInfo u now ty ps pr uid mr)) := by
  cases uid with
  | none =>
      rw [create_job_ok_none st fs bf u now ty ps pr mr hfs]
      rw [lpush_data_lookup_ne _ _ _ _ (key_qp_ne_job _ _)]
      exact setex_data_lookup_self ..
  | some v =>
      by_cases hv : v = ""
      · subst hv
        rw [create_job_ok_some_empty st fs bf u now ty ps pr mr hfs]
        rw [lpush_data_lookup_ne _ _ _ _ (key_qp_ne_job _ _)]
        exact setex_data_lookup_self ..
      · rw [create_job_ok_some st fs bf u now ty ps pr v mr hfs hv]
        show lookupAssoc (Store.expire _ _ _).data _ = _
        rw [expire_data_eq]
        rw [lpush_data_lookup_ne _ _ _ _ (key_uj_ne_job _ _)]
        rw [lpush_data_lookup_ne _ _ _ _ (key_qp_ne_job _ _)]
        exact setex_data_lookup_self ..

lemma create_job_record_ttl (st : Store) (fs : Nat → Bool) (bf : Bool)
    (u now ty : String) (ps : Option Params) (pr : JobPriority) (uid : Option String) (mr : Int)
    (hfs : ∀ n, fs n = false) :
    lookupAssoc (create_job st fs bf u now ty ps pr uid mr).2.ttl ("job:" ++ ("job_" ++ u))
      = some (7 * 86400) := by
  cases uid with
  | none =>
      rw [create_job_ok_none st fs bf u now ty ps pr mr hfs]
      show lookupAssoc (Store.lpush _ _ _).ttl _ = _
      rw [lpush_ttl_eq]
      exact setex_ttl_lookup_self ..
  | some v =>
      by_cases hv : v = ""
      · subst hv
        rw [create_job_ok_some_empty st fs bf u now ty ps pr mr hfs]
        show lookupAssoc (Store.lpush _ _ _).ttl _ = _
        rw [lpush_ttl_eq]
        exact setex_ttl_lookup_self ..
      · rw [create_job_ok_some st fs bf u now ty ps pr v mr hfs hv]
        show lookupAssoc (Store.expire _ _ _).ttl _ = _
        rw [expire_ttl_lookup_ne _ _ _ _ (key_uj_ne_job _ _)]
        rw [lpush_ttl_eq, lpush_ttl_eq]
        exact setex_ttl_lookup_self ..

lemma create_job_lane_listAt (st : Store) (fs : Nat → Bool) (bf : Bool)
    (u now ty : String) (ps : Option Params) (pr : JobPriority) (uid : Option String) (mr : Int)
    (hfs : ∀ n, fs n = false) :
    (create_job st fs bf u now ty ps pr uid mr).2.listAt ("queue:priority:" ++ toString pr.value)
      = ("job_" ++ u) :: st.listAt ("queue:priority:" ++ toString pr.value) := by
  have hsetex : ∀ st' : Store,
      (st'.setex ("job:" ++ ("job_" ++ u)) (7 * 86400)
          (mkJobInfo u now ty ps pr uid mr)).listAt ("queue:priority:" ++ toString pr.value)
        = st'.listAt ("queue:priority:" ++ toString pr.value) := by
    intro st'
    exact listAt_congr _ _ _ (setex_data_lookup_ne _ _ _ _ _ (Ne.symm (key_qp_ne_job _ _)))
  cases uid with
  | none =>
      rw [create_job_ok_none st fs bf u now ty ps pr mr hfs]
      show (Store.lpush _ _ _).listAt _ = _
      rw [lpush_listAt_self, hsetex]
  | some v =>
      by_cases hv : v = ""
      · subst hv
        rw [create_job_ok_some_empty st fs bf u now ty ps pr mr hfs]
        show (Store.lpush _ _ _).listAt _ = _
        rw [lpush_listAt_self, hsetex]
      · rw [create_job_ok_some st fs bf u now ty ps pr v mr hfs hv]
        show (Store.expire _ _ _).listAt _ = _
        rw [expire_listAt]
        rw [listAt_congr _ _ _ (lpush_data_lookup_ne _ _ _ _ (key_uj_ne_qp _ _))]
        rw [lpush_listAt_self, hsetex]

lemma create_job_lane_frame (st : Store) (fs : Nat → Bool) (bf : Bool)
    (u now ty : String) (ps : Option Params) (pr : JobPriority) (uid : Option String) (mr : Int)
    (hfs : ∀ n, fs n = false) (q : JobPriority) (hq : q ≠ pr) :
    lookupAssoc (create_job st fs bf u now ty ps pr uid mr).2.data
        ("queue:priority:" ++ toString q.value)
      = lookupAssoc st.data ("queue:priority:" ++ toString q.value) := by
  have hlane : ("queue:priority:" ++ toString pr.value) ≠ ("queue:priority:" ++ toString q.value) :=
    lane_key_ne pr q (fun h => hq h.symm)
  cases uid with
  | none =>
      rw [create_job_ok_none st fs bf u now ty ps pr mr hfs]
      rw [lpush_data_lookup_ne _ _ _ _ hlane]
      exact setex_data_lookup_ne _ _ _ _ _ (Ne.symm (key_qp_ne_job _ _))
  | some v =>
      by_cases hv : v = ""
      · subst hv
        rw [create_job_ok_some_empty st fs bf u now ty ps pr mr hfs]
        rw [lpush_data_lookup_ne _ _ _ _ hlane]
        exact setex_data_lookup_ne _ _ _ _ _ (Ne.symm (key_qp_ne_job _ _))
      · rw [create_job_ok_some st fs bf u now ty ps pr v mr hfs hv]
        show lookupAssoc (Store.expire _ _ _).data _ = _
        rw [expire_data_eq]
        rw [lpush_data_lookup_ne _ _ _ _ (key_uj_ne_qp _ _)]
        rw [lpush_data_lookup_ne _ _ _ _ hlane]
        exact setex_data_lookup_ne _ _ _ _ _ (Ne.symm (key_qp_ne_job _ _))

lemma create_job_result_ok (st : Store) (fs : Nat → Bool) (bf : Bool)
    (u now ty : String) (ps : Option Params) (pr : JobPriority) (uid : Option String) (mr : Int)
    (hfs : ∀ n, fs n = false) :
    (create_job st fs bf u now ty ps pr uid mr).1 = .ok ("job_" ++ u) := by
  cases uid with
  | none => rw [create_job_ok_none st fs bf u now ty ps pr mr hfs]
  | some v =>
      by_cases hv : v = ""
      · subst hv; rw [create_job_ok_some_empty st fs bf u now ty ps pr mr hfs]
      · rw [create_job_ok_some st fs bf u now ty ps pr v mr hfs hv]

lemma create_job_jobRecAt (st : Store) (fs : Nat → Bool) (bf : Bool)
    (u now ty : String) (ps : Option Params) (pr : JobPriority) (uid : Option String) (mr : Int)
    (hfs : ∀ n, fs n = false) :
    (create_job st fs bf u now ty ps pr uid mr).2.jobRecAt ("job:" ++ ("job_" ++ u))
      = some (mkJobInfo u now ty ps pr uid mr) := by
  unfold Store.jobRecAt
  rw [create_job_record_lookup st fs bf u now ty ps pr uid mr hfs]

lemma create_job_fail0_eq (st : Store) (fs : Nat → Bool) (bf : Bool)
    (u now ty : String) (ps : Option Params) (pr : JobPriority) (uid : Option String) (mr : Int)
    (h0 : fs 0 = true) :
    create_job st fs bf u now ty ps pr uid mr = (.error .StoreUnavailable, st) := by
  simp [create_job, h0]

lemma create_job_fail1_eq (st : Store) (fs : Nat → Bool) (bf : Bool)
    (u now ty : String) (ps : Option Params) (pr : JobPriority) (uid : Option String) (mr : Int)
    (h0 : fs 0 = false) (h1 : fs 1 = true) :
    create_job st fs bf u now ty ps pr uid mr =
      (.error .StoreUnavailable,
       st.setex ("job:" ++ ("job_" ++ u)) (7 * 86400) (mkJobInfo u now ty ps pr uid mr)) := by
  simp [create_job, mkJobInfo, h0, h1]

lemma create_job_none_ok_weak (st : Store) (fs : Nat → Bool) (bf : Bool)
    (u now ty : String) (ps : Option Params) (pr : JobPriority) (mr : Int)
    (h0 : fs 0 = false) (h1 : fs 1 = false) :
    create_job st fs bf u now ty ps pr none mr =
      (.ok ("job_" ++ u),
       (st.setex ("job:" ++ ("job_" ++ u)) (7 * 86400) (mkJobInfo u now ty ps pr none mr)).lpush
         ("queue:priority:" ++ toString pr.value) ("job_" ++ u)) := by
  simp [create_job, mkJobInfo, h0, h1]

/-! ### Claims -/

/-- C1: For every valid invocation of `create_job` (non-empty `job_type`,
a defined `JobPriority` level) whose Durable-Store writes succeed,
`create_job` returns the freshly generated `job_id` — the string
`"job_" ++ uuid-hex` — to the caller. -/
theorem create_job_returns_fresh_job_id (st : Store) (fs : Nat → Bool) (bf : Bool)
    (u now ty : String) (ps : Option Params) (pr : JobPriority) (uid : Option String) (mr : Int)
    (hty : ty ≠ "") (hfs : ∀ n, fs n = false) :
    (create_job st fs bf u now ty ps pr uid mr).1 = .ok ("job_" ++ u) :=
  create_job_result_ok st fs bf u now ty ps pr uid mr hfs

/-- Witness for C1 at a concrete input. -/
theorem create_job_returns_fresh_job_id_witness :
    (create_job Store.empty (fun _ => false) false "0a1b" "2026-01-01T00:00:00" "linkedin_scraping"
        (some [("url", "https://x")]) .HIGH (some "u7") 3).1 = .ok "job_0a1b" :=
  create_job_returns_fresh_job_id Store.empty (fun _ => false) false "0a1b" "2026-01-01T00:00:00"
    "linkedin_scraping" (some [("url", "https://x")]) .HIGH (some "u7") 3
    (by decide) (fun _ => rfl)

/-- C2 counterexample: the claim "if any write to the Durable Store fails
then no state was created" is false.  With the store failing on the
second write (the lane `lpush`), `create_job` raises `StoreUnavailable`
yet the job record written by the first write (the `setex`) remains in
the store: partial state. -/
theorem create_job_partial_state_counterexample :
    (create_job Store.empty (fun n => n == 1) false "0a1b" "2026-01-01T00:00:00"
        "linkedin_scraping" none .NORMAL none 3).1 = .error .StoreUnavailable
      ∧ lookupAssoc (create_job Store.empty (fun n => n == 1) false "0a1b" "2026-01-01T00:00:00"
          "linkedin_scraping" none .NORMAL none 3).2.data "job:job_0a1b" ≠ none :=
  ⟨rfl, by decide⟩

/-- C2 amended: if a Durable-Store write fails, `create_job` raises
`StoreUnavailable` and returns no `job_id`; when the failing write is the
FIRST one (the job-record `setex`), no state is created — but a failure
in a later write leaves the earlier writes in place, so "no partial
state" does not hold in general. -/
theorem create_job_first_write_failure_no_state (st : Store) (fs : Nat → Bool) (bf : Bool)
    (u now ty : String) (ps : Option Params) (pr : JobPriority) (uid : Option String) (mr : Int)
    (h0 : fs 0 = true) :
    create_job st fs bf u now ty ps pr uid mr = (.error .StoreUnavailable, st) :=
  create_job_fail0_eq st fs bf u now ty ps pr uid mr h0

/-- Witness for the C2 amended theorem at a concrete input. -/
theorem create_job_first_write_failure_no_state_witness :
    create_job Store.empty (fun _ => true) false "0a1b" "2026-01-01T00:00:00" "linkedin_scraping"
        none .NORMAL none 3
      = (.error .StoreUnavailable, Store.empty) :=
  create_job_first_write_failure_no_state Store.empty (fun _ => true) false "0a1b"
    "2026-01-01T00:00:00" "linkedin_scraping" none .NORMAL none 3 rfl

/-- C3 counterexample: the claim that `create_job` fails with
`ValidationError` on an empty `job_type` or `max_retries < 0` is false:
with `job_type = ""` and `max_retries = -1` the call succeeds, returns a
`job_id`, and persists the job record — no validation exists in the
code. -/
theorem create_job_no_validation_counterexample :
    (create_job Store.empty (fun _ => false) false "0a1b" "2026-01-01T00:00:00" "" none .NORMAL
        none (-1)).1 = .ok "job_0a1b"
      ∧ (create_job Store.empty (fun _ => false) false "0a1b" "2026-01-01T00:00:00" "" none
          .NORMAL none (-1)).2.jobRecAt "job:job_0a1b" ≠ none :=
  ⟨rfl, by decide⟩

/-- C3 amended: `create_job` performs no input validation: an invocation
with an empty `job_type` or with `max_retries < 0` is accepted — the job
is created and the fresh `job_id` returned, and no `ValidationError` is
raised (none exists in the code; a priority outside the four defined
levels cannot be passed, since `priority` has the `JobPriority` enum
type). -/
theorem create_job_accepts_invalid_input (st : Store) (fs : Nat → Bool) (bf : Bool)
    (u now ty : String) (ps : Option Params) (pr : JobPriority) (uid : Option String) (mr : Int)
    (hbad : ty = "" ∨ mr < 0) (hfs : ∀ n, fs n = false) :
    (create_job st fs bf u now ty ps pr uid mr).1 = .ok ("job_" ++ u) :=
  create_job_result_ok st fs bf u now ty ps pr uid mr hfs

/-- Witness for the C3 amended theorem at a concrete input. -/
theorem create_job_accepts_invalid_input_witness :
    (create_job Store.empty (fun _ => false) false "0a1b" "2026-01-01T00:00:00" "" none .NORMAL
        none (-1)).1 = .ok "job_0a1b" :=
  create_job_accepts_invalid_input Store.empty (fun _ => false) false "0a1b"
    "2026-01-01T00:00:00" "" none .NORMAL none (-1) (Or.inl rfl) (fun _ => rfl)

/-- C4 (the claim is the spec's mandated FIFO intent; the code is the
slip): at the failing input — two jobs admitted to the same NORMAL lane,
`job_aaaa` before `job_bbbb` — the lane list holds the newer id at its
head, and the dispatcher pull (which per spec §9 takes from the same end
`LPUSH` pushes) serves `job_bbbb` first: LIFO, not the claimed
FIFO-within-lane. -/
theorem lane_serves_newest_first_at_failing_input :
    lookupAssoc
        (create_job
            (create_job Store.empty (fun _ => false) false "aaaa" "t1" "linkedin_scraping" none
              .NORMAL none 3).2
            (fun _ => false) false "bbbb" "t2" "linkedin_scraping" none .NORMAL none 3).2.data
        "queue:priority:5" = some (.list ["job_bbbb", "job_aaaa"])
      ∧ (lane_pop
          (create_job
              (create_job Store.empty (fun _ => false) false "aaaa" "t1" "linkedin_scraping" none
                .NORMAL none 3).2
              (fun _ => false) false "bbbb" "t2" "linkedin_scraping" none .NORMAL none 3).2
          "queue:priority:5").1 = some "job_bbbb" :=
  ⟨rfl, rfl⟩

/-- C5 counterexample: the claim that the new `job_id` is appended to the
TAIL of the lane list is false.  Starting from a store whose NORMAL lane
already holds `["job_old"]`, `create_job` leaves the lane as
`["job_aaaa", "job_old"]` — the new id is at the head; tail-append would
have produced `["job_old", "job_aaaa"]`, a different value. -/
theorem lane_tail_append_counterexample :
    lookupAssoc
        (create_job { data := [("queue:priority:5", .list ["job_old"])], ttl := [] }
            (fun _ => false) false "aaaa" "t1" "linkedin_scraping" none .NORMAL none 3).2.data
        "queue:priority:5" = some (.list ["job_aaaa", "job_old"])
      ∧ RVal.list ["job_aaaa", "job_old"] ≠ RVal.list ["job_old", "job_aaaa"] :=
  ⟨rfl, by decide⟩

/-- C5 amended: for every valid invocation of `create_job` with priority
`P` (on a store whose lane key holds a list, as it always does), the new
`job_id` is pushed onto the HEAD (left end) of the priority-lane list
whose key is `queue:priority:` followed by the numeric value of `P`, and
no other lane is modified. -/
theorem create_job_pushes_head_of_own_lane (st : Store) (fs : Nat → Bool) (bf : Bool)
    (u now ty : String) (ps : Option Params) (pr : JobPriority) (uid : Option String) (mr : Int)
    (hfs : ∀ n, fs n = false)
    (hwt : ∀ j : JobInfo,
      lookupAssoc st.data ("queue:priority:" ++ toString pr.value) ≠ some (.str j)) :
    (create_job st fs bf u now ty ps pr uid mr).2.listAt ("queue:priority:" ++ toString pr.value)
        = ("job_" ++ u) :: st.listAt ("queue:priority:" ++ toString pr.value)
      ∧ ∀ q : JobPriority, q ≠ pr →
          lookupAssoc (create_job st fs bf u now ty ps pr uid mr).2.data
              ("queue:priority:" ++ toString q.value)
            = lookupAssoc st.data ("queue:priority:" ++ toString q.value) :=
  ⟨create_job_lane_listAt st fs bf u now ty ps pr uid mr hfs,
   fun q hq => create_job_lane_frame st fs bf u now ty ps pr uid mr hfs q hq⟩

/-- Witness for the C5 amended theorem at a concrete input. -/
theorem create_job_pushes_head_of_own_lane_witness :
    (create_job Store.empty (fun _ => false) false "0a1b" "2026-01-01T00:00:00"
          "linkedin_scraping" none .URGENT none 3).2.listAt
        ("queue:priority:" ++ toString JobPriority.URGENT.value)
        = "job_0a1b" :: Store.empty.listAt ("queue:priority:" ++ toString JobPriority.URGENT.value)
      ∧ lookupAssoc (create_job Store.empty (fun _ => false) false "0a1b" "2026-01-01T00:00:00"
            "linkedin_scraping" none .URGENT none 3).2.data
          ("queue:priority:" ++ toString JobPriority.LOW.value)
        = lookupAssoc Store.empty.data ("queue:priority:" ++ toString JobPriority.LOW.value) :=
  ⟨(create_job_pushes_head_of_own_lane Store.empty (fun _ => false) false "0a1b"
      "2026-01-01T00:00:00" "linkedin_scraping" none .URGENT none 3 (fun _ => rfl)
      (fun j h => Option.noConfusion h)).1,
   (create_job_pushes_head_of_own_lane Store.empty (fun _ => false) false "0a1b"
      "2026-01-01T00:00:00" "linkedin_scraping" none .URGENT none 3 (fun _ => rfl)
      (fun j h => Option.noConfusion h)).2 .LOW (by decide)⟩

/-- C6: for every valid invocation whose Durable-Store writes succeed, a
failure of the worker-submission backend does not affect admission: the
result is identical to the no-failure run, the caller receives the fresh
`job_id` (not the backend's error), and the job record and lane entry
remain created. -/
theorem create_job_succeeds_despite_backend_failure (st : Store) (fs : Nat → Bool)
    (u now ty : String) (ps : Option Params) (pr : JobPriority) (uid : Option String) (mr : Int)
    (hfs : ∀ n, fs n = false) :
    create_job st fs true u now ty ps pr uid mr = create_job st fs false u now ty ps pr uid mr
      ∧ (create_job st fs true u now ty ps pr uid mr).1 = .ok ("job_" ++ u)
      ∧ (create_job st fs true u now ty ps pr uid mr).2.jobRecAt ("job:" ++ ("job_" ++ u)) ≠ none
      ∧ ("job_" ++ u) ∈ (create_job st fs true u now ty ps pr uid mr).2.listAt
          ("queue:priority:" ++ toString pr.value) := by
  refine ⟨rfl, create_job_result_ok st fs true u now ty ps pr uid mr hfs, ?_, ?_⟩
  · rw [create_job_jobRecAt st fs true u now ty ps pr uid mr hfs]
    exact fun h => Option.noConfusion h
  · rw [create_job_lane_listAt st fs true u now ty ps pr uid mr hfs]
    exact List.mem_cons_self _ _

/-- Witness for C6 at a concrete input. -/
theorem create_job_succeeds_despite_backend_failure_witness :
    create_job Store.empty (fun _ => false) true "0a1b" "2026-01-01T00:00:00" "linkedin_scraping"
          none .NORMAL (some "u7") 3
        = create_job Store.empty (fun _ => false) false "0a1b" "2026-01-01T00:00:00"
            "linkedin_scraping" none .NORMAL (some "u7") 3
      ∧ (create_job Store.empty (fun _ => false) true "0a1b" "2026-01-01T00:00:00"
          "linkedin_scraping" none .NORMAL (some "u7") 3).1 = .ok "job_0a1b"
      ∧ (create_job Store.empty (fun _ => false) true "0a1b" "2026-01-01T00:00:00"
          "linkedin_scraping" none .NORMAL (some "u7") 3).2.jobRecAt "job:job_0a1b" ≠ none
      ∧ "job_0a1b" ∈ (create_job Store.empty (fun _ => false) true "0a1b" "2026-01-01T00:00:00"
          "linkedin_scraping" none .NORMAL (some "u7") 3).2.listAt "queue:priority:5" :=
  create_job_succeeds_despite_backend_failure Store.empty (fun _ => false) "0a1b"
    "2026-01-01T00:00:00" "linkedin_scraping" none .NORMAL (some "u7") 3 (fun _ => rfl)

/-- C7: for every valid invocation whose Durable-Store writes succeed, the
record persisted under key `job:<job_id>` with a 7-day (604800-second)
expiry has status PENDING, `created_at` equal to the creation time,
progress 0, `retry_count` 0, the caller's `job_type`, priority,
`max_retries` and `user_id`, and `started_at`, `completed_at`, `result`
and `error_message` unset. -/
theorem create_job_persists_pending_record (st : Store) (fs : Nat → Bool) (bf : Bool)
    (u now ty : String) (ps : Option Params) (pr : JobPriority) (uid : Option String) (mr : Int)
    (hfs : ∀ n, fs n = false) :
    (create_job st fs bf u now ty ps pr uid mr).2.jobRecAt ("job:" ++ ("job_" ++ u))
        = some { job_id := "job_" ++ u, job_type := ty, status := JobStatus.PENDING.value,
                 priority := pr.value, created_at := now, started_at := none,
                 completed_at := none, progress := 0, progress_message := "",
                 parameters := some (pyOrEmpty ps), result := none, error_message := none,
                 retry_count := 0, max_retries := mr, user_id := uid }
      ∧ lookupAssoc (create_job st fs bf u now ty ps pr uid mr).2.ttl ("job:" ++ ("job_" ++ u))
        = some (7 * 86400) :=
  ⟨create_job_jobRecAt st fs bf u now ty ps pr uid mr hfs,
   create_job_record_ttl st fs bf u now ty ps pr uid mr hfs⟩

/-- Witness for C7 at a concrete input. -/
theorem create_job_persists_pending_record_witness :
    (create_job Store.empty (fun _ => false) false "0a1b" "2026-01-01T00:00:00"
          "linkedin_scraping" none .HIGH (some "u7") 5).2.jobRecAt "job:job_0a1b"
        = some { job_id := "job_0a1b", job_type := "linkedin_scraping", status := "pending",
                 priority := 8, created_at := "2026-01-01T00:00:00", started_at := none,
                 completed_at := none, progress := 0, progress_message := "",
                 parameters := some [], result := none, error_message := none,
                 retry_count := 0, max_retries := 5, user_id := some "u7" }
      ∧ lookupAssoc (create_job Store.empty (fun _ => false) false "0a1b" "2026-01-01T00:00:00"
            "linkedin_scraping" none .HIGH (some "u7") 5).2.ttl "job:job_0a1b"
        = some 604800 :=
  create_job_persists_pending_record Store.empty (fun _ => false) false "0a1b"
    "2026-01-01T00:00:00" "linkedin_scraping" none .HIGH (some "u7") 5 (fun _ => rfl)

/-- C8: for every valid invocation with a present (truthy) `user_id` whose
Durable-Store writes succeed, the `job_id` is added to the list at key
`user_jobs:<user_id>` (pushed at its head, as the code's `LPUSH` does),
and that key's 30-day (2592000-second) expiry is set on every such
call — refreshed on every append. -/
theorem create_job_user_index_append_refreshes_ttl (st : Store) (fs : Nat → Bool) (bf : Bool)
    (u now ty : String) (ps : Option Params) (pr : JobPriority) (uid : String) (mr : Int)
    (hu : uid ≠ "") (hfs : ∀ n, fs n = false)
    (hwt : ∀ j : JobInfo, lookupAssoc st.data ("user_jobs:" ++ uid) ≠ some (.str j)) :
    (create_job st fs bf u now ty ps pr (some uid) mr).2.listAt ("user_jobs:" ++ uid)
        = ("job_" ++ u) :: st.listAt ("user_jobs:" ++ uid)
      ∧ lookupAssoc (create_job st fs bf u now ty ps pr (some uid) mr).2.ttl
          ("user_jobs:" ++ uid) = some (86400 * 30) := by
  rw [create_job_ok_some st fs bf u now ty ps pr uid mr hfs hu]
  constructor
  · show (Store.expire _ _ _).listAt _ = _
    rw [expire_listAt, lpush_listAt_self]
    have h1 := listAt_congr
      ((st.setex ("job:" ++ ("job_" ++ u)) (7 * 86400)
          (mkJobInfo u now ty ps pr (some uid) mr)).lpush
        ("queue:priority:" ++ toString pr.value) ("job_" ++ u))
      (st.setex ("job:" ++ ("job_" ++ u)) (7 * 86400) (mkJobInfo u now ty ps pr (some uid) mr))
      ("user_jobs:" ++ uid)
      (lpush_data_lookup_ne _ _ _ _ (Ne.symm (key_uj_ne_qp _ _)))
    have h2 := listAt_congr
      (st.setex ("job:" ++ ("job_" ++ u)) (7 * 86400) (mkJobInfo u now ty ps pr (some uid) mr))
      st ("user_jobs:" ++ uid)
      (setex_data_lookup_ne _ _ _ _ _ (Ne.symm (key_uj_ne_job _ _)))
    rw [h1, h2]
  · exact expire_ttl_lookup_self _ _ _
      (by rw [lpush_data_lookup_self]; exact fun h => Option.noConfusion h)

/-- Witness for C8 at a concrete input. -/
theorem create_job_user_index_append_refreshes_ttl_witness :
    (create_job Store.empty (fun _ => false) false "0a1b" "2026-01-01T00:00:00"
          "linkedin_scraping" none .NORMAL (some "u7") 3).2.listAt "user_jobs:u7"
        = "job_0a1b" :: Store.empty.listAt "user_jobs:u7"
      ∧ lookupAssoc (create_job Store.empty (fun _ => false) false "0a1b" "2026-01-01T00:00:00"
            "linkedin_scraping" none .NORMAL (some "u7") 3).2.ttl "user_jobs:u7"
        = some 2592000 :=
  create_job_user_index_append_refreshes_ttl Store.empty (fun _ => false) false "0a1b"
    "2026-01-01T00:00:00" "linkedin_scraping" none .NORMAL "u7" 3 (by decide) (fun _ => rfl)
    (fun j h => Option.noConfusion h)

/-- C9: for every invocation whose Durable-Store writes succeed and whose
`parameters` argument is `None` or the empty mapping, the persisted job
record's `parameters` field is the empty mapping — never null/absent
(line 113: `parameters=parameters or {}`). -/
theorem create_job_parameters_never_null (st : Store) (fs : Nat → Bool) (bf : Bool)
    (u now ty : String) (ps : Option Params) (pr : JobPriority) (uid : Option String) (mr : Int)
    (hps : ps = none ∨ ps = some ([] : Params)) (hfs : ∀ n, fs n = false) :
    ((create_job st fs bf u now ty ps pr uid mr).2.jobRecAt ("job:" ++ ("job_" ++ u))).bind
        JobInfo.parameters = some ([] : Params) := by
  rw [create_job_jobRecAt st fs bf u now ty ps pr uid mr hfs]
  rcases hps with h | h <;> subst h <;> rfl

/-- Witness for C9 at a concrete input. -/
theorem create_job_parameters_never_null_witness :
    ((create_job Store.empty (fun _ => false) false "0a1b" "2026-01-01T00:00:00"
          "linkedin_scraping" none .NORMAL none 3).2.jobRecAt "job:job_0a1b").bind
        JobInfo.parameters = some ([] : Params) :=
  create_job_parameters_never_null Store.empty (fun _ => false) false "0a1b"
    "2026-01-01T00:00:00" "linkedin_scraping" none .NORMAL none 3 (Or.inl rfl) (fun _ => rfl)

/-- C10: for every invocation with `user_id = None`, whatever the fault
behavior of the store, no `user_jobs:<...>` key is written and no such
key's expiry is changed — the per-user index state is unchanged by the
call (the guarded block at lines 131–134 is the only access to those
keys, and it is skipped). -/
theorem create_job_no_user_id_frame (st : Store) (fs : Nat → Bool) (bf : Bool)
    (u now ty : String) (ps : Option Params) (pr : JobPriority) (mr : Int) (uid' : String) :
    lookupAssoc (create_job st fs bf u now ty ps pr none mr).2.data ("user_jobs:" ++ uid')
        = lookupAssoc st.data ("user_jobs:" ++ uid')
      ∧ lookupAssoc (create_job st fs bf u now ty ps pr none mr).2.ttl ("user_jobs:" ++ uid')
        = lookupAssoc st.ttl ("user_jobs:" ++ uid') := by
  cases h0 : fs 0 with
  | true =>
      rw [create_job_fail0_eq st fs bf u now ty ps pr none mr h0]
      exact ⟨rfl, rfl⟩
  | false =>
      cases h1 : fs 1 with
      | true =>
          rw [create_job_fail1_eq st fs bf u now ty ps pr none mr h0 h1]
          exact ⟨setex_data_lookup_ne _ _ _ _ _ (Ne.symm (key_uj_ne_job _ _)),
                 setex_ttl_lookup_ne _ _ _ _ _ (Ne.symm (key_uj_ne_job _ _))⟩
      | false =>
          rw [create_job_none_ok_weak st fs bf u now ty ps pr mr h0 h1]
          constructor
          · exact (lpush_data_lookup_ne _ _ _ _ (Ne.symm (key_uj_ne_qp _ _))).trans
              (setex_data_lookup_ne _ _ _ _ _ (Ne.symm (key_uj_ne_job _ _)))
          · show lookupAssoc (Store.lpush _ _ _).ttl _ = _
            rw [lpush_ttl_eq]
            exact setex_ttl_lookup_ne _ _ _ _ _ (Ne.symm (key_uj_ne_job _ _))
